import Mathlib

/-!
Verification of the cross-cutting request pipeline of the
`nestjs-infra-template` service: exception taxonomy and normalization
(`BaseExceptionDto`, the concrete exception classes), the masking engine
(`CustomLoggerService.maskSensitiveData`), the logging interceptor and the
global exception filter, and the configuration assembler
(`ConfigurationLoaderFactory`, `InfrastructureModuleBuilder`).

The TypeScript sources are shallowly embedded as executable Lean
definitions; machine strings are Lean `String`s, JS numbers that appear are
natural numbers, and structured JSON-like data is the inductive `JVal`.
-/

namespace NestInfra

/-- ASCII lower-casing of one character, mirroring what
`String.prototype.toLowerCase` does on the ASCII identifiers that appear in
this code base (enum member names and log keys). -/
def lowerChar (c : Char) : Char :=
  if 'A' ≤ c ∧ c ≤ 'Z' then Char.ofNat (c.toNat + 32) else c

/-- `s.toLowerCase()` on ASCII strings. -/
def lowerStr (s : String) : String :=
  String.mk (s.data.map lowerChar)

/-- Is `pre` a prefix of `l`?  Helper for the JS `String.prototype.includes`
substring test. -/
def isPrefixL : List Char → List Char → Bool
  | [], _ => true
  | _ :: _, [] => false
  | a :: as, b :: bs => a = b && isPrefixL as bs

/-- Is `needle` a contiguous sublist of `l`?  (`"".includes` of anything
empty is `true`, as in JS.) -/
def isInfixL (needle : List Char) : List Char → Bool
  | [] => needle.isEmpty
  | c :: rest => isPrefixL needle (c :: rest) || isInfixL needle rest

/-- `hay.includes(needle)` from JS. -/
def includesStr (hay needle : String) : Bool :=
  isInfixL needle.data hay.data

/-- The whitespace characters removed by `String.prototype.trim`
(the code only ever asks whether `col.trim() !== ''`, i.e. whether a string
is entirely whitespace, so only membership of this set matters). -/
def isJsWhitespace (c : Char) : Bool :=
  c = ' ' || c = '\t' || c = '\n' || c = '\r' || c = '\x0b' || c = '\x0c'

/-- `col.trim() === ''`: the string is empty or entirely whitespace. -/
def isBlank (s : String) : Bool :=
  s.data.all isJsWhitespace

/-- `code.replace(/_/g, ' ').toLowerCase()` from `BaseExceptionDto`'s
constructor: every underscore becomes a space, everything else is
lower-cased (lower-casing a space is the identity, so the fused single pass
is extensionally the replace-then-lowercase of the source). -/
def wordsOf (code : String) : String :=
  String.mk (code.data.map (fun c => if c = '_' then ' ' else lowerChar c))

/-- A TypeScript enum-object value: enum members map names to numbers, and
numeric enums additionally carry the reverse string-valued mappings. -/
inductive EnumVal where
  | s (v : String)
  | n (v : Nat)
deriving DecidableEq, Repr

/-- `src/core/exceptions/utils/get-enum-by-value.ts`:
`Object.keys(enumObj).find((k) => enumObj[k] === value)`.  The enum object
is its key/value pairs in `Object.keys` order. -/
def GetEnumByValue (value : EnumVal) (enumObj : List (String × EnumVal)) :
    Option String :=
  (enumObj.find? (fun kv => kv.2 = value)).map (fun kv => kv.1)

/-- The integer-like reverse-mapping keys of the compiled `HttpStatus`
numeric enum object, in the ascending order `Object.keys` yields them. -/
def HttpStatusReverseKeys : List (String × EnumVal) :=
  [("100", .s "CONTINUE"), ("101", .s "SWITCHING_PROTOCOLS"),
   ("102", .s "PROCESSING"), ("103", .s "EARLYHINTS"),
   ("200", .s "OK"), ("201", .s "CREATED"), ("202", .s "ACCEPTED"),
   ("203", .s "NON_AUTHORITATIVE_INFORMATION"), ("204", .s "NO_CONTENT"),
   ("205", .s "RESET_CONTENT"), ("206", .s "PARTIAL_CONTENT"),
   ("300", .s "AMBIGUOUS"), ("301", .s "MOVED_PERMANENTLY"),
   ("302", .s "FOUND"), ("303", .s "SEE_OTHER"), ("304", .s "NOT_MODIFIED"),
   ("307", .s "TEMPORARY_REDIRECT"), ("308", .s "PERMANENT_REDIRECT"),
   ("400", .s "BAD_REQUEST"), ("401", .s "UNAUTHORIZED"),
   ("402", .s "PAYMENT_REQUIRED"), ("403", .s "FORBIDDEN"),
   ("404", .s "NOT_FOUND"), ("405", .s "METHOD_NOT_ALLOWED"),
   ("406", .s "NOT_ACCEPTABLE"), ("407", .s "PROXY_AUTHENTICATION_REQUIRED"),
   ("408", .s "REQUEST_TIMEOUT"), ("409", .s "CONFLICT"), ("410", .s "GONE"),
   ("411", .s "LENGTH_REQUIRED"), ("412", .s "PRECONDITION_FAILED"),
   ("413", .s "PAYLOAD_TOO_LARGE"), ("414", .s "URI_TOO_LONG"),
   ("415", .s "UNSUPPORTED_MEDIA_TYPE"),
   ("416", .s "REQUESTED_RANGE_NOT_SATISFIABLE"),
   ("417", .s "EXPECTATION_FAILED"), ("418", .s "I_AM_A_TEAPOT"),
   ("421", .s "MISDIRECTED"), ("422", .s "UNPROCESSABLE_ENTITY"),
   ("424", .s "FAILED_DEPENDENCY"), ("428", .s "PRECONDITION_REQUIRED"),
   ("429", .s "TOO_MANY_REQUESTS"), ("500", .s "INTERNAL_SERVER_ERROR"),
   ("501", .s "NOT_IMPLEMENTED"), ("502", .s "BAD_GATEWAY"),
   ("503", .s "SERVICE_UNAVAILABLE"), ("504", .s "GATEWAY_TIMEOUT"),
   ("505", .s "HTTP_VERSION_NOT_SUPPORTED")]

/-- The member-name keys of the compiled `HttpStatus` enum object, in
declaration order, each mapping to its numeric value. -/
def HttpStatusMembers : List (String × EnumVal) :=
  [("CONTINUE", .n 100), ("SWITCHING_PROTOCOLS", .n 101),
   ("PROCESSING", .n 102), ("EARLYHINTS", .n 103),
   ("OK", .n 200), ("CREATED", .n 201), ("ACCEPTED", .n 202),
   ("NON_AUTHORITATIVE_INFORMATION", .n 203), ("NO_CONTENT", .n 204),
   ("RESET_CONTENT", .n 205), ("PARTIAL_CONTENT", .n 206),
   ("AMBIGUOUS", .n 300), ("MOVED_PERMANENTLY", .n 301),
   ("FOUND", .n 302), ("SEE_OTHER", .n 303), ("NOT_MODIFIED", .n 304),
   ("TEMPORARY_REDIRECT", .n 307), ("PERMANENT_REDIRECT", .n 308),
   ("BAD_REQUEST", .n 400), ("UNAUTHORIZED", .n 401),
   ("PAYMENT_REQUIRED", .n 402), ("FORBIDDEN", .n 403),
   ("NOT_FOUND", .n 404), ("METHOD_NOT_ALLOWED", .n 405),
   ("NOT_ACCEPTABLE", .n 406), ("PROXY_AUTHENTICATION_REQUIRED", .n 407),
   ("REQUEST_TIMEOUT", .n 408), ("CONFLICT", .n 409), ("GONE", .n 410),
   ("LENGTH_REQUIRED", .n 411), ("PRECONDITION_FAILED", .n 412),
   ("PAYLOAD_TOO_LARGE", .n 413), ("URI_TOO_LONG", .n 414),
   ("UNSUPPORTED_MEDIA_TYPE", .n 415),
   ("REQUESTED_RANGE_NOT_SATISFIABLE", .n 416),
   ("EXPECTATION_FAILED", .n 417), ("I_AM_A_TEAPOT", .n 418),
   ("MISDIRECTED", .n 421), ("UNPROCESSABLE_ENTITY", .n 422),
   ("FAILED_DEPENDENCY", .n 424), ("PRECONDITION_REQUIRED", .n 428),
   ("TOO_MANY_REQUESTS", .n 429), ("INTERNAL_SERVER_ERROR", .n 500),
   ("NOT_IMPLEMENTED", .n 501), ("BAD_GATEWAY", .n 502),
   ("SERVICE_UNAVAILABLE", .n 503), ("GATEWAY_TIMEOUT", .n 504),
   ("HTTP_VERSION_NOT_SUPPORTED", .n 505)]

/-- The `HttpStatus` numeric enum of `@nestjs/common`, as the JS object it
compiles to.  `Object.keys` on a TS numeric enum yields the integer-like
reverse-mapping keys first in ascending order (each mapping to the member
name, a string), then the member names in declaration order (each mapping
to its number).  The reverse entries can never compare equal to a numeric
status, but they are part of the object being searched. -/
def HttpStatus : List (String × EnumVal) :=
  HttpStatusReverseKeys ++ HttpStatusMembers

/-- `ExceptionTypeEnum`: the closed set of domain error categories used by
the taxonomy (`src/core/exceptions/exception-type.enum.ts`). -/
inductive ExceptionTypeEnum where
  | BAD_REQUEST
  | NOT_FOUND
  | VALIDATION
  | UNAUTHORIZED
  | FORBIDDEN
  | CONFLICT
  | UNIQUE_VIOLATION
  | UNPROCESSABLE_ENTITY
  | INTERNAL_SERVER_ERROR
deriving DecidableEq, Repr

/-- The string value of an `ExceptionTypeEnum` member. -/
def ExceptionTypeEnum.val : ExceptionTypeEnum → String
  | .BAD_REQUEST => "BAD_REQUEST"
  | .NOT_FOUND => "NOT_FOUND"
  | .VALIDATION => "VALIDATION"
  | .UNAUTHORIZED => "UNAUTHORIZED"
  | .FORBIDDEN => "FORBIDDEN"
  | .CONFLICT => "CONFLICT"
  | .UNIQUE_VIOLATION => "UNIQUE_VIOLATION"
  | .UNPROCESSABLE_ENTITY => "UNPROCESSABLE_ENTITY"
  | .INTERNAL_SERVER_ERROR => "INTERNAL_SERVER_ERROR"

/-- The canonical error record built by `BaseExceptionDto`
(`src/core/exceptions/base-exception.dto.ts`).  `new Date()` is modelled by
an ambient clock value `now` supplied to the constructor. -/
structure BaseExceptionDto where
  status : Nat
  message : String
  code : String
  target : List String
  timestamp : Nat
  type : ExceptionTypeEnum
  detail : String
deriving DecidableEq, Repr

/-- `BaseExceptionDto.CreateBaseException(columns, status, type, detail)`:
  - `code = GetEnumByValue(status, HttpStatus) || 'UNKNOWN'`;
  - `target = columns.filter((col) => col.trim() !== '')`;
  - `errorName = code.replace(/_/g, ' ').toLowerCase()`;
  - `message = target.length > 0 ?
      errorName + " error(s) in " + target.join(', ') :
      errorName + " error(s)"`.
The source declares `detail = ''` as a default; callers here pass it
explicitly. -/
def BaseExceptionDto.CreateBaseException (columns : List String)
    (status : Nat) (type : ExceptionTypeEnum) (detail : String) (now : Nat) :
    BaseExceptionDto :=
  let code := (GetEnumByValue (.n status) HttpStatus).getD "UNKNOWN"
  let target := columns.filter (fun col => !isBlank col)
  let errorName := wordsOf code
  { status := status
    code := code
    target := target
    timestamp := now
    type := type
    message :=
      if target.length > 0 then
        errorName ++ " error(s) in " ++ String.intercalate ", " target
      else
        errorName ++ " error(s)"
    detail := detail }

/-- `id.toString()` on a TS `string | number` union value (the union is
reused from `EnumVal`, whose two constructors are exactly string and
number). -/
def EnumVal.toStr : EnumVal → String
  | .s v => v
  | .n v => toString v

/-- A thrown taxonomy exception: each variant calls
`super(baseExceptionDto, status)`, so the exception carries the
`BaseExceptionDto` as its `getResponse()` payload and the status as its
`getStatus()` value. -/
structure TaxonomyException where
  record : BaseExceptionDto
  status : Nat
deriving DecidableEq, Repr

/-- `CustomBadRequestException` (the taxonomy BadRequest): builds the
record with `HttpStatus.BAD_REQUEST` (400) and the caller-chosen type. -/
def CustomBadRequestException (fields : List String)
    (type : ExceptionTypeEnum) (detail : String) (now : Nat) :
    TaxonomyException :=
  { record := BaseExceptionDto.CreateBaseException fields 400 type detail now
    status := 400 }

/-- `NotFoundException(resource, identifier)` from
`src/core/exceptions/http/not-found.exception.ts`: record built from
`[identifier.toString()]`, `HttpStatus.NOT_FOUND` (404),
`ExceptionTypeEnum.NOT_FOUND` and the interpolated detail. -/
def NotFoundException (resource : String) (identifier : EnumVal)
    (now : Nat) : TaxonomyException :=
  { record := BaseExceptionDto.CreateBaseException [identifier.toStr] 404
      .NOT_FOUND (resource ++ " with identifier " ++ identifier.toStr ++
        " not found") now
    status := 404 }

/-- `UnauthorizedException(detail)`; the source declares the default
`detail = 'Authentication required'`, passed explicitly here. -/
def UnauthorizedException (detail : String) (now : Nat) :
    TaxonomyException :=
  { record := BaseExceptionDto.CreateBaseException [] 401 .UNAUTHORIZED
      detail now
    status := 401 }

/-- `ForbiddenException(resource)`. -/
def ForbiddenException (resource : String) (now : Nat) :
    TaxonomyException :=
  { record := BaseExceptionDto.CreateBaseException [] 403 .FORBIDDEN
      ("You do not have permission to access " ++ resource) now
    status := 403 }

/-- `DatabaseOperationException(error, methodName)`: wraps the underlying
error's message at 500 / INTERNAL_SERVER_ERROR.  (Its constructor also
eagerly logs; the log side effect carries no data that the record does
not.) -/
def DatabaseOperationException (errorMessage methodName : String)
    (now : Nat) : TaxonomyException :=
  { record := BaseExceptionDto.CreateBaseException [] 500
      .INTERNAL_SERVER_ERROR errorMessage now
    status := 500 }

/-! ## JSON-like structured values and the masking engine -/

mutual
/-- A finite acyclic JS value as the logger sees it: `null`, scalars,
arrays and plain objects (an object is its key/value entries in
`Object.keys` order). -/
inductive JVal where
  | null
  | str (s : String)
  | num (n : Int)
  | bool (b : Bool)
  | arr (elems : JArr)
  | obj (entries : JObj)

/-- The elements of a JS array. -/
inductive JArr where
  | nil
  | cons (hd : JVal) (tl : JArr)

/-- The entries of a JS object. -/
inductive JObj where
  | nil
  | cons (key : String) (val : JVal) (tl : JObj)
end

deriving instance DecidableEq for JVal

/-- The elements of a `JArr` as a Lean list. -/
def JArr.toList : JArr → List JVal
  | .nil => []
  | .cons v t => v :: JArr.toList t

/-- The keys of a JS object value, in order (`Object.keys`); `[]` for
anything that is not an object. -/
def JObj.keys : JObj → List String
  | .nil => []
  | .cons k _ t => k :: JObj.keys t

/-- The keys of a JS value: its entry keys in order when it is an object,
`[]` otherwise. -/
def JVal.keys : JVal → List String
  | .obj o => o.keys
  | _ => []

/-- `typeof v === 'object'` in JS: true for `null`, arrays and objects. -/
def isObjectType : JVal → Bool
  | .null => true
  | .arr _ => true
  | .obj _ => true
  | _ => false

/-- `String(v)` on the non-object values that can reach the conversion in
`logger.filter.ts` (strings, numbers, booleans; the object cases are
unreachable there because they are guarded by the `typeof` check). -/
def jsStringOf : JVal → String
  | .str s => s
  | .num n => toString n
  | .bool b => if b then "true" else "false"
  | _ => ""

/-- The default `sensitiveFields` of `logger.config.ts` (used when
`LOG_SENSITIVE_FIELDS` is not set). -/
def defaultSensitiveFields : List String :=
  ["password", "refreshToken", "accessToken", "apiKey", "secret", "token"]

/-- The default `excludePaths` of `logger.config.ts` (used when
`LOG_EXCLUDE_PATHS` is not set). -/
def defaultExcludePaths : List String :=
  ["/api/v1/health", "/health"]

/-- `this.sensitiveFields.some((field) =>
key.toLowerCase().includes(field.toLowerCase()))` from
`CustomLoggerService.maskSensitiveData`. -/
def isSensitiveKey (sensitiveFields : List String) (key : String) : Bool :=
  sensitiveFields.any (fun field =>
    includesStr (lowerStr key) (lowerStr field))

mutual
/-- `CustomLoggerService.maskSensitiveData(data)` from
`src/logger/logger.service.ts`:
  - `typeof data !== 'object' || data === null` → return `data`;
  - arrays → `data.map((item) => maskSensitiveData(item))`;
  - objects → copy, then per key: a sensitive key's value becomes
    `'***MASKED***'`; otherwise a value with `typeof === 'object'`
    (including `null`) is recursed into; otherwise it is left as is. -/
def maskSensitiveData (sensitiveFields : List String) : JVal → JVal
  | .null => .null
  | .str s => .str s
  | .num n => .num n
  | .bool b => .bool b
  | .arr l => .arr (maskArray sensitiveFields l)
  | .obj o => .obj (maskEntries sensitiveFields o)

/-- Element-wise masking of an array (`data.map`). -/
def maskArray (sensitiveFields : List String) : JArr → JArr
  | .nil => .nil
  | .cons v t =>
      .cons (maskSensitiveData sensitiveFields v)
        (maskArray sensitiveFields t)

/-- The per-key loop of `maskSensitiveData` over an object's entries. -/
def maskEntries (sensitiveFields : List String) : JObj → JObj
  | .nil => .nil
  | .cons k v t =>
      .cons k
        (if isSensitiveKey sensitiveFields k then JVal.str "***MASKED***"
         else if isObjectType v then maskSensitiveData sensitiveFields v
         else v)
        (maskEntries sensitiveFields t)
end

/-! ## The global exception filter -/

/-- A value thrown past the route handler, as `LoggerExceptionFilter.catch`
discriminates it: an `HttpException` (with its `getStatus()` and
`getResponse()`), a generic runtime `Error` (with its `message`), or any
non-`Error` value. -/
inductive Thrown where
  | http (status : Nat) (response : JVal)
  | error (message : String)
  | other

/-- The `{ statusCode, message, error }` object literal that
`LoggerExceptionFilter.catch` builds in its non-object branches. -/
def errorResponseObj (statusCode : Nat) (message errLabel : String) :
    JVal :=
  .obj (.cons "statusCode" (.num statusCode)
    (.cons "message" (.str message)
      (.cons "error" (.str errLabel) .nil)))

/-- `LoggerExceptionFilter.catch` (`src/logger/logger.filter.ts`), as the
pair (HTTP status written, response body emitted):
  - an `HttpException` whose `getResponse()` is an object is echoed
    verbatim at the exception's own status; a non-object response is
    wrapped as `{ statusCode, message: String(response), error: 'Error' }`;
  - a generic `Error` becomes
    `{ statusCode: 500, message: error.message, error: 'Internal Server Error' }`;
  - anything else becomes
    `{ statusCode: 500, message: 'An unexpected error occurred', error: 'Internal Server Error' }`. -/
def LoggerExceptionFilter.catchResponse : Thrown → Nat × JVal
  | .http status r =>
      if isObjectType r then (status, r)
      else (status, errorResponseObj status (jsStringOf r) "Error")
  | .error m => (500, errorResponseObj 500 m "Internal Server Error")
  | .other =>
      (500, errorResponseObj 500 "An unexpected error occurred"
        "Internal Server Error")

/-! ## The logging interceptor and the per-request event stream -/

/-- One emitted log event of the request pipeline: the interceptor's
incoming / completed / failed events, and the filter's
`Exception caught` error event. -/
inductive LogEvent where
  | incoming (method url : String) (correlationId : Option String)
  | completed (method url : String) (correlationId : Option String)
  | requestFailed (method url : String) (correlationId : Option String)
  | exceptionCaught (method url : String) (correlationId : Option String)
deriving DecidableEq, Repr

/-- `this.excludePaths.some((path) => url.includes(path))` from
`LoggerInterceptor.intercept`. -/
def pathExcluded (excludePaths : List String) (url : String) : Bool :=
  excludePaths.any (fun p => includesStr url p)

/-- The log events `LoggerInterceptor.intercept` emits for one request
(`src/.../logger.interceptor.ts`): nothing on an excluded path (it returns
`next.handle()` before logging or assigning a correlation id); otherwise
one `Incoming request` event, then `Request completed` on success or
`Request failed` on error, all carrying the correlation id assigned to the
request. -/
def LoggerInterceptor.events (excludePaths : List String)
    (method url : String) (fails : Bool) (cid : String) : List LogEvent :=
  if pathExcluded excludePaths url then []
  else
    .incoming method url (some cid) ::
      (if fails then [.requestFailed method url (some cid)]
       else [.completed method url (some cid)])

/-- The correlation id stored on the request object: assigned by the
interceptor only when the path is not excluded (`request.correlationId`
stays `undefined` otherwise). -/
def requestCorrelationId (excludePaths : List String) (url : String)
    (cid : String) : Option String :=
  if pathExcluded excludePaths url then none else some cid

/-- All log events emitted for one request, in emission order: the
interceptor's events, then — when the exception reaches the global boundary
— the filter's unconditional `Exception caught` error event
(`logger.filter.ts` line 57 logs before writing the response, with the
correlation id read off the request, which is absent on excluded paths).
In the Nest pipeline the interceptor's error tap observes the exception
before the filter does. -/
def requestEvents (excludePaths : List String) (method url : String)
    (fails : Bool) (cid : String) : List LogEvent :=
  LoggerInterceptor.events excludePaths method url fails cid ++
    (if fails then
      [.exceptionCaught method url
        (requestCorrelationId excludePaths url cid)]
     else [])

/-- Is this an `incoming` event? -/
def LogEvent.isIncoming : LogEvent → Bool
  | .incoming _ _ _ => true
  | _ => false

/-- Is this a terminal interceptor event (`completed` or `failed`)? -/
def LogEvent.isTerminal : LogEvent → Bool
  | .completed _ _ _ => true
  | .requestFailed _ _ _ => true
  | _ => false

/-- The correlation id an event carries. -/
def LogEvent.cid : LogEvent → Option String
  | .incoming _ _ c => c
  | .completed _ _ c => c
  | .requestFailed _ _ c => c
  | .exceptionCaught _ _ c => c

/-! ## The configuration assembler -/

/-- The configuration loaders `ConfigurationLoaderFactory.createLoaders`
can return, named after their source modules. -/
inductive ConfigLoader where
  | vault
  | logger
  | jwt
  | database
  | redis
deriving DecidableEq, Repr

/-- `ConfigurationLoaderFactory.createLoaders()`
(`src/core/factories/infrastructure-module.builder.ts`): starts from
`[loggerConfig, jwtConfig]`, pushes `databaseConfig` when `USE_DATABASE`,
pushes `redisConfig` when `USE_REDIS`, and prepends `vaultLoader` when
`USE_VAULT`.  The `env.USE_*` flags (`process.env.USE_* === 'true'`) are
passed in as booleans. -/
def ConfigurationLoaderFactory.createLoaders (useDatabase useRedis
    useVault : Bool) : List ConfigLoader :=
  let loaders : List ConfigLoader := [.logger, .jwt]
  let loaders := if useDatabase then loaders ++ [.database] else loaders
  let loaders := if useRedis then loaders ++ [.redis] else loaders
  if useVault then .vault :: loaders else loaders

/-- The service modules the strategies can produce. -/
inductive InfraModule where
  | loggerModule
  | databaseModule
  | redisModule
deriving DecidableEq, Repr

/-- A registered `ModuleLoadStrategy`: `shouldLoad()` evaluated at the
flags in force, and the module `create()` yields. -/
structure ModuleLoadStrategy where
  shouldLoad : Bool
  create : InfraModule
deriving DecidableEq, Repr

/-- `LoggerLoadStrategy`: `shouldLoad()` is always `true`. -/
def LoggerLoadStrategy : ModuleLoadStrategy :=
  { shouldLoad := true, create := .loggerModule }

/-- `DatabaseLoadStrategy`: `shouldLoad()` delegates to
`DatabaseModuleFactory.shouldLoad()`, i.e.
`process.env.USE_DATABASE === 'true'`. -/
def DatabaseLoadStrategy (useDatabase : Bool) : ModuleLoadStrategy :=
  { shouldLoad := useDatabase, create := .databaseModule }

/-- `RedisLoadStrategy`: `shouldLoad()` delegates to
`RedisModuleFactory.shouldLoad()`, i.e.
`process.env.USE_REDIS === 'true'`. -/
def RedisLoadStrategy (useRedis : Bool) : ModuleLoadStrategy :=
  { shouldLoad := useRedis, create := .redisModule }

/-- `InfrastructureModuleBuilder.build()`: filter the registered
strategies by `shouldLoad()` and map the survivors through `create()`,
preserving registration order. -/
def InfrastructureModuleBuilder.build
    (strategies : List ModuleLoadStrategy) : List InfraModule :=
  (strategies.filter (fun s => s.shouldLoad)).map (fun s => s.create)

/-- The strategy list registered by the application's builder chain
`create().withLogger().withDatabase().withRedis()` (as in `main.ts` and the
class doc), in registration order. -/
def appStrategies (useDatabase useRedis : Bool) :
    List ModuleLoadStrategy :=
  [LoggerLoadStrategy, DatabaseLoadStrategy useDatabase,
   RedisLoadStrategy useRedis]

/-! ## Helper lemmas -/

/-- Masking never changes whether a value is object-typed. -/
theorem isObjectType_mask (fields : List String) (v : JVal) :
    isObjectType (maskSensitiveData fields v) = isObjectType v := by
  cases v <;> rfl

mutual
/-- Idempotence of the masking engine on values. -/
theorem maskSensitiveData_idem (fields : List String) :
    ∀ v : JVal, maskSensitiveData fields (maskSensitiveData fields v) =
      maskSensitiveData fields v
  | .null => rfl
  | .str _ => rfl
  | .num _ => rfl
  | .bool _ => rfl
  | .arr l => congrArg JVal.arr (maskArray_idem fields l)
  | .obj o => congrArg JVal.obj (maskEntries_idem fields o)

/-- Idempotence of the masking engine on array elements. -/
theorem maskArray_idem (fields : List String) :
    ∀ l : JArr, maskArray fields (maskArray fields l) = maskArray fields l
  | .nil => rfl
  | .cons v t => by
      simp only [maskArray, maskSensitiveData_idem fields v,
        maskArray_idem fields t]

/-- Idempotence of the masking engine on object entries. -/
theorem maskEntries_idem (fields : List String) :
    ∀ o : JObj, maskEntries fields (maskEntries fields o) =
      maskEntries fields o
  | .nil => rfl
  | .cons k v t => by
      cases hs : isSensitiveKey fields k with
      | true => simp [maskEntries, hs, maskEntries_idem fields t]
      | false =>
          cases hv : isObjectType v with
          | false => simp [maskEntries, hs, hv, maskEntries_idem fields t]
          | true =>
              simp [maskEntries, hs, hv, isObjectType_mask,
                maskSensitiveData_idem fields v, maskEntries_idem fields t]
end

/-- Masking an array is element-wise masking of its list of elements. -/
theorem maskArray_toList (fields : List String) :
    ∀ l : JArr, (maskArray fields l).toList =
      l.toList.map (maskSensitiveData fields)
  | .nil => rfl
  | .cons v t => by
      simp only [maskArray, JArr.toList, List.map,
        maskArray_toList fields t]

/-! ## Claim theorems -/

/-- C1 (counterexample): constructing a BadRequest with kind VALIDATION
yields the message "bad request error(s)", not a message beginning
"validation error(s)" — the message is derived from the status's symbolic
name, not from the supplied ExceptionKind. -/
theorem C1_validation_kind_counterexample :
    (CustomBadRequestException [] .VALIDATION "" 0).record.message =
      "bad request error(s)" ∧
    "bad request error(s)" ≠ "validation error(s)" := by decide

/-- C1 (amended): for every tuple (fields, status, kind, detail), the
constructed record's message is "S error(s)" when the retained fields are
empty and "S error(s) in F1, ..., Fn" otherwise, where S is the words of
the symbolic name of the HTTP status (falling back to "unknown"),
independent of the supplied ExceptionKind. -/
theorem C1_message_uses_status_words (fields : List String) (status : Nat)
    (kind : ExceptionTypeEnum) (detail : String) (now : Nat) :
    (BaseExceptionDto.CreateBaseException fields status kind detail
      now).message =
      (if (BaseExceptionDto.CreateBaseException fields status kind detail
            now).target = [] then
        wordsOf ((GetEnumByValue (.n status) HttpStatus).getD "UNKNOWN") ++
          " error(s)"
      else
        wordsOf ((GetEnumByValue (.n status) HttpStatus).getD "UNKNOWN") ++
          " error(s) in " ++
          String.intercalate ", "
            ((BaseExceptionDto.CreateBaseException fields status kind detail
              now).target)) := by
  simp only [BaseExceptionDto.CreateBaseException]
  cases h : fields.filter (fun col => !isBlank col) <;> simp [h]

/-- C2 (counterexample): a thrown generic Error "boom" is answered with
the three-field body (statusCode, message, error), whose key set is not
the canonical seven-field ErrorRecord shape. -/
theorem C2_generic_error_counterexample :
    LoggerExceptionFilter.catchResponse (.error "boom") =
      (500, errorResponseObj 500 "boom" "Internal Server Error") ∧
    (LoggerExceptionFilter.catchResponse (.error "boom")).2.keys ≠
      ["status", "message", "code", "target", "timestamp", "type",
       "detail"] := by decide

/-- C2 (amended): every generic runtime Error is wrapped by the boundary
handler as status 500 with body (statusCode: 500, message: the error's
message, error: "Internal Server Error"); that body has exactly the keys
statusCode, message, error, so the canonical ErrorRecord shape is not
produced on this path. -/
theorem C2_generic_error_body_shape (m : String) :
    LoggerExceptionFilter.catchResponse (.error m) =
      (500, errorResponseObj 500 m "Internal Server Error") ∧
    (errorResponseObj 500 m "Internal Server Error").keys =
      ["statusCode", "message", "error"] :=
  ⟨rfl, rfl⟩

/-- C3 (counterexample): a failing request on the excluded path "/health"
still produces one log event (the filter's error event, with no
correlation id), so an excluded request does not always emit zero
events. -/
theorem C3_excluded_failed_counterexample :
    requestEvents defaultExcludePaths "GET" "/health" true "cid-1" =
      [.exceptionCaught "GET" "/health" none] ∧
    requestEvents defaultExcludePaths "GET" "/health" true "cid-1" ≠
      ([] : List LogEvent) := by decide

/-- C3 (amended): on an excluded path the interceptor emits nothing, but a
failing request still gets the filter's error event, carrying no
correlation id; on any other path exactly one incoming and exactly one
terminal event are emitted and every emitted event (the filter's error
event on failure included) carries the request's correlation id. -/
theorem C3_request_event_stream (excludePaths : List String)
    (method url : String) (fails : Bool) (cid : String) :
    (pathExcluded excludePaths url = true →
      requestEvents excludePaths method url fails cid =
        (if fails then [LogEvent.exceptionCaught method url none]
         else [])) ∧
    (pathExcluded excludePaths url = false →
      ((requestEvents excludePaths method url fails cid).countP
          (fun e => e.isIncoming) = 1 ∧
       (requestEvents excludePaths method url fails cid).countP
          (fun e => e.isTerminal) = 1 ∧
       ∀ e ∈ requestEvents excludePaths method url fails cid,
         e.cid = some cid)) := by
  constructor
  · intro h
    cases fails <;>
      simp [requestEvents, LoggerInterceptor.events, requestCorrelationId,
        h]
  · intro h
    cases fails <;>
      simp [requestEvents, LoggerInterceptor.events, requestCorrelationId,
        h, List.countP_cons, LogEvent.isIncoming, LogEvent.isTerminal,
        LogEvent.cid]

/-- C3 (witness): the amended theorem applied to a plain successful
request on a non-excluded path. -/
theorem C3_request_event_stream_witness :
    (requestEvents defaultExcludePaths "GET" "/api/users" false
      "c1").countP (fun e => e.isIncoming) = 1 ∧
    (requestEvents defaultExcludePaths "GET" "/api/users" false
      "c1").countP (fun e => e.isTerminal) = 1 ∧
    (∀ e ∈ requestEvents defaultExcludePaths "GET" "/api/users" false "c1",
      e.cid = some "c1") :=
  (C3_request_event_stream defaultExcludePaths "GET" "/api/users" false
    "c1").2 (by decide)

/-- C4 (counterexample): the input ["a", "a"] yields the target
["a", "a"], which contains a duplicate entry — duplicates are not
dropped. -/
theorem C4_duplicates_counterexample :
    (BaseExceptionDto.CreateBaseException ["a", "a"] 400 .VALIDATION ""
      0).target = ["a", "a"] ∧
    ¬ (["a", "a"] : List String).Nodup := by decide

/-- C4 (amended): the target preserves the input order (it is a sublist of
the input) and contains no blank entries, but duplicates are kept: every
non-blank entry keeps its multiplicity. -/
theorem C4_target_order_blanks (cols : List String) (status : Nat)
    (kind : ExceptionTypeEnum) (detail : String) (now : Nat) :
    List.Sublist
      ((BaseExceptionDto.CreateBaseException cols status kind detail
        now).target) cols ∧
    (∀ s ∈ (BaseExceptionDto.CreateBaseException cols status kind detail
        now).target, isBlank s = false) ∧
    (∀ s : String, isBlank s = false →
      ((BaseExceptionDto.CreateBaseException cols status kind detail
        now).target).count s = cols.count s) := by
  refine ⟨?_, ?_, ?_⟩
  · simp only [BaseExceptionDto.CreateBaseException]
    exact List.filter_sublist cols
  · intro s hs
    simp only [BaseExceptionDto.CreateBaseException, List.mem_filter] at hs
    simpa using hs.2
  · intro s hs
    simp only [BaseExceptionDto.CreateBaseException]
    rw [List.count_filter]
    simp [hs]

/-- C4 (witness): a non-blank duplicated entry keeps its multiplicity
while the blank entry is dropped. -/
theorem C4_target_order_blanks_witness :
    ((BaseExceptionDto.CreateBaseException ["a", " ", "a"] 400 .VALIDATION
      "" 0).target).count "a" = (["a", " ", "a"] : List String).count "a" :=
  (C4_target_order_blanks ["a", " ", "a"] 400 .VALIDATION "" 0).2.2 "a"
    (by decide)

/-- C5: with USE_VAULT=true, USE_DATABASE=true, USE_REDIS=false the
assembler produces the loader list [vault, logger, jwt, database] — the
secret-store loader first — and the activated-module list
[logger, database], which does not contain the Redis module. -/
theorem C5_assembler_flags :
    ConfigurationLoaderFactory.createLoaders true false true =
      [.vault, .logger, .jwt, .database] ∧
    InfrastructureModuleBuilder.build (appStrategies true false) =
      [.loggerModule, .databaseModule] ∧
    InfraModule.redisModule ∉
      InfrastructureModuleBuilder.build (appStrategies true false) := by
  decide

/-- C6: the masking engine is idempotent on every finite acyclic value
(for any sensitive-field configuration), masking an array is element-wise,
and the masked array's elements are exactly the element-wise masks of the
input — so order and length are preserved.  (The embedding is a pure
function, so the input value itself is never modified.) -/
theorem C6_mask_idempotent_elementwise (fields : List String) (v : JVal)
    (a : JArr) :
    maskSensitiveData fields (maskSensitiveData fields v) =
      maskSensitiveData fields v ∧
    maskSensitiveData fields (.arr a) = .arr (maskArray fields a) ∧
    (maskArray fields a).toList =
      a.toList.map (maskSensitiveData fields) :=
  ⟨maskSensitiveData_idem fields v, rfl, maskArray_toList fields a⟩

/-- C7: raising NotFound("User", 42) yields the record with status 404,
type NOT_FOUND, target ["42"], message "not found error(s) in 42" and
detail "User with identifier 42 not found". -/
theorem C7_not_found_scenario (now : Nat) :
    NotFoundException "User" (.n 42) now =
      { record :=
          { status := 404
            message := "not found error(s) in 42"
            code := "NOT_FOUND"
            target := ["42"]
            timestamp := now
            type := .NOT_FOUND
            detail := "User with identifier 42 not found" }
        status := 404 } := rfl

/-- C8: every HttpException whose payload is object-typed is emitted
verbatim as the response body, with the exception's own status code — the
boundary handler does not normalize such payloads. -/
theorem C8_http_exception_passthrough (status : Nat) (r : JVal)
    (h : isObjectType r = true) :
    LoggerExceptionFilter.catchResponse (.http status r) = (status, r) := by
  simp [LoggerExceptionFilter.catchResponse, h]

/-- C8 (witness): a concrete non-taxonomy object payload at status 418 is
echoed verbatim. -/
theorem C8_http_exception_passthrough_witness :
    LoggerExceptionFilter.catchResponse
      (.http 418 (errorResponseObj 418 "teapot" "Error")) =
      (418, errorResponseObj 418 "teapot" "Error") :=
  C8_http_exception_passthrough 418 (errorResponseObj 418 "teapot" "Error")
    (by decide)

/-- C9: for every status with no symbolic name in the HTTP status
enumeration, record construction succeeds with code "UNKNOWN" and a
message built from the word "unknown". -/
theorem C9_unknown_status_fallback (status : Nat) (cols : List String)
    (kind : ExceptionTypeEnum) (detail : String) (now : Nat)
    (h : GetEnumByValue (.n status) HttpStatus = none) :
    (BaseExceptionDto.CreateBaseException cols status kind detail
      now).code = "UNKNOWN" ∧
    (BaseExceptionDto.CreateBaseException cols status kind detail
      now).message =
      (if (BaseExceptionDto.CreateBaseException cols status kind detail
            now).target = [] then "unknown error(s)"
       else "unknown error(s) in " ++
         String.intercalate ", "
           ((BaseExceptionDto.CreateBaseException cols status kind detail
             now).target)) := by
  have hw : wordsOf "UNKNOWN" = "unknown" := by decide
  have hin : (("unknown" : String) ++ " error(s) in ") =
      "unknown error(s) in " := rfl
  constructor
  · simp [BaseExceptionDto.CreateBaseException, h]
  · simp only [BaseExceptionDto.CreateBaseException, h, Option.getD, hw]
    cases hc : cols.filter (fun col => !isBlank col) <;> simp [hc, hw, hin]

/-- C9 (witness): status 999 has no symbolic name and falls back to
"UNKNOWN". -/
theorem C9_unknown_status_fallback_witness :
    GetEnumByValue (.n 999) HttpStatus = none ∧
    (BaseExceptionDto.CreateBaseException [] 999 .VALIDATION "" 0).code =
      "UNKNOWN" :=
  ⟨by decide, (C9_unknown_status_fallback 999 [] .VALIDATION "" 0
    (by decide)).1⟩

/-- C10: in a mapping, a key matching a sensitive-field substring gets the
fixed marker regardless of its value (a null value included), while a null
value under a non-matching key passes through unchanged. -/
theorem C10_masked_null_values (fields : List String) (k k2 : String)
    (v : JVal) (t : JObj) (h1 : isSensitiveKey fields k = true)
    (h2 : isSensitiveKey fields k2 = false) :
    maskSensitiveData fields (.obj (.cons k v (.cons k2 .null t))) =
      .obj (.cons k (.str "***MASKED***")
        (.cons k2 .null (maskEntries fields t))) := by
  simp [maskSensitiveData, maskEntries, h1, h2, isObjectType]

/-- C10 (witness): with the default sensitive fields, a null "Password"
value is masked (case-insensitively) and a null "username" value passes
through. -/
theorem C10_masked_null_values_witness :
    maskSensitiveData defaultSensitiveFields
      (.obj (.cons "Password" .null (.cons "username" .null .nil))) =
      .obj (.cons "Password" (.str "***MASKED***")
        (.cons "username" .null .nil)) :=
  C10_masked_null_values defaultSensitiveFields "Password" "username"
    .null .nil (by decide) (by decide)

end NestInfra
